import Mathlib

/-!
Verification of the Deep-research-agent chat backend.

The development shallowly embeds the two source files:

* `agent_core.py` — the research tools (`research_topic`, `deep_research`,
  `get_financial_data`, `get_current_time_in_country`).  External
  collaborators (the FireCrawl provider, the `pytz` timezone database, the
  wall clock) are passed in as explicit function parameters; each tool
  additionally returns the exact list of calls it made to the provider, so
  that theorems can speak about the arguments the provider was invoked with.
* `main.py` — the HTTP handlers over the Prisma store.  The store is a pure
  `Db` value threaded through each handler; Prisma primitives
  (`find_unique`, `create`, `update`, `delete_many`, ...) are modelled as
  total functions on `Db`.  The bcrypt hash and the uuid generator are
  external collaborators, passed in as parameters.
-/

/-- A JSON value, as stored in the Prisma `Json` columns and sent in
request bodies.  Arrays and objects are flattened into cons-cells so that
equality is derivable; `JValue.ofList` / `JValue.toList` convert. -/
inductive JValue where
  | str (s : String)
  | num (n : Nat)
  | jbool (b : Bool)
  | arrNil
  | arrCons (head tail : JValue)
  | objNil
  | objCons (key : String) (val tail : JValue)
deriving DecidableEq, Repr

/-- Build a JSON array value from a list of values. -/
def JValue.ofList : List JValue → JValue
  | [] => .arrNil
  | x :: xs => .arrCons x (JValue.ofList xs)

/-- Read a JSON value back as a list, when it is an array. -/
def JValue.toList : JValue → Option (List JValue)
  | .arrNil => some []
  | .arrCons x t => (JValue.toList t).map (fun xs => x :: xs)
  | _ => none

/-- One entry of a session history (`{"role": ..., "content": ...}`). -/
structure Message where
  role : String
  content : String
deriving DecidableEq, Repr

/-- A row of the `chatsession` table: storage-assigned primary key `id`,
client-facing `session_id`, owning `user_id`, the history log and the
creation timestamp used by `order={"created_at": "desc"}`. -/
structure ChatSession where
  id : Nat
  session_id : String
  user_id : String
  history : List Message
  created_at : Nat
deriving DecidableEq, Repr

/-- A row of the `user` table, with the fields `main.py` reads or writes. -/
structure User where
  id : String
  email : String
  password : String
  isSubscribed : Bool
  subscription : JValue
  freePlanUsage : JValue
  role : String
  paymentStatus : String
  plan : String
  agentSessions : List JValue
  notifications : List JValue
  createdAt : Nat
  updatedAt : Nat
deriving DecidableEq, Repr

/-- The persistent store: the two tables plus a counter supplying
storage-assigned ids and creation timestamps. -/
structure Db where
  users : List User
  sessions : List ChatSession
  nextId : Nat
deriving DecidableEq, Repr

/-! ### Prisma store primitives

Each primitive is the pure counterpart of the corresponding
`prisma.user.*` / `prisma.chatsession.*` call in `main.py`. -/

/-- `prisma.user.find_unique(where={"id": user_id})`. -/
def userFindUnique (db : Db) (uid : String) : Option User :=
  db.users.find? (fun u => u.id == uid)

/-- `prisma.user.find_unique(where={"email": email})` (used by `/login`). -/
def userFindByEmail (db : Db) (email : String) : Option User :=
  db.users.find? (fun u => u.email == email)

/-- `prisma.user.create(data={...})`.  The caller passes the column values
exactly as the source does (in particular the password value is already
hashed at every call site in `main.py`).  Columns the call site omits take
the schema defaults; the schema file is not part of `src/`, so the defaults
are modelled from the spec data model (§3): `role` "admin", `plan` "free",
`paymentStatus` "inactive", everything else empty/false.  The storage
assigns the id and the timestamps from `db.nextId`. -/
def userCreate (db : Db) (email password : String) (isSubscribed : Bool)
    (subscription freePlanUsage : JValue) (role paymentStatus plan : String) :
    Db × User :=
  let u : User :=
    { id := "user" ++ toString db.nextId
      email := email
      password := password
      isSubscribed := isSubscribed
      subscription := subscription
      freePlanUsage := freePlanUsage
      role := role
      paymentStatus := paymentStatus
      plan := plan
      agentSessions := []
      notifications := []
      createdAt := db.nextId
      updatedAt := db.nextId }
  ({ db with users := db.users ++ [u], nextId := db.nextId + 1 }, u)

/-- `prisma.user.update(where={"id": uid}, data={"notifications": ...})`
(the notification push in `handle_chat_message`). -/
def userUpdateNotifications (db : Db) (uid : String) (ns : List JValue) : Db :=
  { db with
    users := db.users.map (fun u =>
      if u.id == uid then { u with notifications := ns } else u) }

/-- `prisma.user.delete_many(where={"id": user_id})`, returning the count. -/
def userDeleteMany (db : Db) (uid : String) : Db × Nat :=
  ({ db with users := db.users.filter (fun u => u.id != uid) },
   (db.users.filter (fun u => u.id == uid)).length)

/-- `prisma.chatsession.find_unique(where={"session_id": session_id})`. -/
def chatFindUnique (db : Db) (sid : String) : Option ChatSession :=
  db.sessions.find? (fun s => s.session_id == sid)

/-- `prisma.chatsession.find_first(where={"user_id": uid},
order={"created_at": "desc"})`. -/
def chatFindFirstByUserDesc (db : Db) (uid : String) : Option ChatSession :=
  (db.sessions.filter (fun s => s.user_id == uid)).foldl
    (fun acc s =>
      match acc with
      | none => some s
      | some t => if t.created_at < s.created_at then some s else acc)
    none

/-- `prisma.chatsession.create(data={...})`; the storage assigns the
primary key and `created_at` from `db.nextId`. -/
def chatCreate (db : Db) (sid uid : String) (seed : List Message) :
    Db × ChatSession :=
  let s : ChatSession :=
    { id := db.nextId
      session_id := sid
      user_id := uid
      history := seed
      created_at := db.nextId }
  ({ db with sessions := db.sessions ++ [s], nextId := db.nextId + 1 }, s)

/-- `prisma.chatsession.update(where={"id": pk}, data={"history": ...})`. -/
def chatUpdateHistory (db : Db) (pk : Nat) (h : List Message) : Db :=
  { db with
    sessions := db.sessions.map (fun s =>
      if s.id == pk then { s with history := h } else s) }

/-- `prisma.chatsession.update(where={"id": pk}, data={"user_id": ...})`. -/
def chatUpdateOwner (db : Db) (pk : Nat) (uid : String) : Db :=
  { db with
    sessions := db.sessions.map (fun s =>
      if s.id == pk then { s with user_id := uid } else s) }

/-- `prisma.chatsession.find_many(where={"user_id": uid})`. -/
def chatFindManyByUser (db : Db) (uid : String) : List ChatSession :=
  db.sessions.filter (fun s => s.user_id == uid)

/-- `prisma.chatsession.delete_many(where={"session_id": sid})`. -/
def chatDeleteManyBySid (db : Db) (sid : String) : Db × Nat :=
  ({ db with sessions := db.sessions.filter (fun s => s.session_id != sid) },
   (db.sessions.filter (fun s => s.session_id == sid)).length)

/-- `prisma.chatsession.delete_many(where={"user_id": uid})`. -/
def chatDeleteManyByUser (db : Db) (uid : String) : Db × Nat :=
  ({ db with sessions := db.sessions.filter (fun s => s.user_id != uid) },
   (db.sessions.filter (fun s => s.user_id == uid)).length)

/-! ### agent_core.py — research tools

The FireCrawl provider is an external collaborator; it is modelled as a
function from the call arguments to either a result payload or a raised
exception (`Except String FcData`).  Each tool returns, next to its Python
return value, the list of provider calls it performed, so that theorems can
inspect the arguments actually sent to `firecrawl_app.deep_research`. -/

/-- The arguments of one `firecrawl_app.deep_research(...)` call. -/
structure FcCall where
  query : String
  max_depth : Nat
  time_limit : Nat
  max_urls : Nat
deriving DecidableEq, Repr

/-- The `results["data"]` payload of a successful provider call:
`finalAnalysis` may be absent (the source then substitutes
"No analysis found.") and `sources` is a list. -/
structure FcData where
  finalAnalysis : Option String
  sources : List String
deriving DecidableEq, Repr

/-- The process environment the tools read: whether the `firecrawl`
module loaded and the `FireCrawl_API_KEY` variable. -/
structure ToolEnv where
  firecrawlInstalled : Bool
  fcApiKey : Option String
deriving DecidableEq, Repr

/-- The dictionary a research tool returns.  `Option` fields record which
keys the source puts in each branch: the dependency-missing and key-missing
returns carry only `error` and `success`; the exception return carries all
five keys; the success return carries no `error`. -/
structure ToolReturn where
  success : Bool
  error : Option String
  final_analysis : Option String
  sources_count : Option Nat
  sources : Option (List String)
deriving DecidableEq, Repr

/-- Shared body of the three research tools (their code is identical up to
the constants passed to the provider): dependency check, API-key check,
provider call with the given fixed arguments, exception handler. -/
def firecrawlToolBody (env : ToolEnv) (fc : FcCall → Except String FcData)
    (query : String) (depthArg timeArg urlsArg : Nat) :
    ToolReturn × List FcCall :=
  if !env.firecrawlInstalled then
    ({ success := false
       error := some "Deep research tool dependency missing."
       final_analysis := none
       sources_count := none
       sources := none }, [])
  else
    match env.fcApiKey with
    | none =>
        ({ success := false
           error := some "FireCrawl API key not configured."
           final_analysis := none
           sources_count := none
           sources := none }, [])
    | some _ =>
        match fc { query := query, max_depth := depthArg,
                   time_limit := timeArg, max_urls := urlsArg } with
        | .ok data =>
            ({ success := true
               error := none
               final_analysis := some (data.finalAnalysis.getD "No analysis found.")
               sources_count := some data.sources.length
               sources := some data.sources },
             [{ query := query, max_depth := depthArg,
                time_limit := timeArg, max_urls := urlsArg }])
        | .error e =>
            ({ success := false
               error := some e
               final_analysis := some "Deep research failed."
               sources_count := some 0
               sources := some [] },
             [{ query := query, max_depth := depthArg,
                time_limit := timeArg, max_urls := urlsArg }])

/-- `research_topic` (the quick-search tool): takes the caller-supplied
`max_depth`, `time_limit`, `max_urls` but invokes the provider with the
literals `max_depth=5, time_limit=180, max_urls=10` hard-coded at
`agent_core.py` lines 96-101. -/
def research_topic (env : ToolEnv) (fc : FcCall → Except String FcData)
    (query : String) (max_depth time_limit max_urls : Nat) :
    ToolReturn × List FcCall :=
  firecrawlToolBody env fc query 5 180 10

/-- `deep_research`: invokes the provider with the literals
`max_depth=10, time_limit=300, max_urls=50` hard-coded at
`agent_core.py` lines 141-146. -/
def deep_research (env : ToolEnv) (fc : FcCall → Except String FcData)
    (query : String) (max_depth time_limit max_urls : Nat) :
    ToolReturn × List FcCall :=
  firecrawlToolBody env fc query 10 300 50

/-- `get_financial_data`: same body, provider called with
`max_depth=10, time_limit=300, max_urls=50` (lines 192-197). -/
def get_financial_data (env : ToolEnv) (fc : FcCall → Except String FcData)
    (query : String) (max_depth time_limit max_urls : Nat) :
    ToolReturn × List FcCall :=
  firecrawlToolBody env fc query 10 300 50

/-! ### agent_core.py — the time tool

`pytz` and the wall clock are external collaborators: the timezone
database is a list of recognized names and the clock maps a recognized
name to the local date-time.  `pytz.timezone` raising
`UnknownTimeZoneError` is modelled by the membership test; the handler
returns the error string of `agent_core.py` line 225.  The Lean function
is total: no input makes it raise. -/

/-- A broken-down local date-time, as produced by `datetime.now(tz)`. -/
structure LocalTime where
  year : Nat
  month : Nat
  day : Nat
  hour : Nat
  minute : Nat
  second : Nat
deriving DecidableEq, Repr

/-- Zero-pad to two digits, as `%m`/`%d`/`%H`/`%M`/`%S` do. -/
def pad2 (n : Nat) : String :=
  if n < 10 then "0" ++ toString n else toString n

/-- Zero-pad a year to four digits, as `%Y` does. -/
def pad4 (n : Nat) : String :=
  if n < 10 then "000" ++ toString n
  else if n < 100 then "00" ++ toString n
  else if n < 1000 then "0" ++ toString n
  else toString n

/-- `now.strftime("%Y-%m-%d %H:%M:%S")`. -/
def strftimeYmdHms (t : LocalTime) : String :=
  pad4 t.year ++ "-" ++ pad2 t.month ++ "-" ++ pad2 t.day ++ " " ++
    pad2 t.hour ++ ":" ++ pad2 t.minute ++ ":" ++ pad2 t.second

/-- The f-string of `agent_core.py` line 225, grouped around the
"Unknown timezone" marker. -/
def unknownTzMessage (country_tz : String) : String :=
  "Error: " ++ ("Unknown timezone" ++ (" '" ++ country_tz ++
    "'. Please provide a valid timezone name (e.g., 'America/New_York', 'Europe/London', 'Asia/Tokyo')."))

/-- `get_current_time_in_country`: format the current time in the given
timezone, or return the structured error string for unknown names. -/
def get_current_time_in_country (tzdb : List String)
    (clock : String → LocalTime) (country_tz : String) : String :=
  if tzdb.contains country_tz then
    strftimeYmdHms (clock country_tz)
  else
    unknownTzMessage country_tz

/-! ### main.py — HTTP handlers

An endpoint's outcome is `Except HttpError α`: `HTTPException(status, detail)`
raised by the handler becomes `.error`, the JSON success payload becomes
`.ok`.  `pwd_context.hash` (bcrypt) and the `uuid.uuid4()` draws are
external collaborators passed in as parameters. -/

/-- An `HTTPException(status_code, detail)`. -/
structure HttpError where
  status : Nat
  detail : String
deriving DecidableEq, Repr

/-- The request body of `POST /chat`. -/
structure ChatRequest where
  message : String
  session_id : Option String
  user_id : Option String
deriving DecidableEq, Repr

/-- The `data` object of a successful `POST /chat` response. -/
structure ChatOk where
  sessionId : String
  userId : String
  prompt : String
  reply : String
deriving DecidableEq, Repr

/-- The fresh values the handler draws from `uuid.uuid4()`: the hex seed
of the anonymous email, the hex plaintext that is hashed into the
anonymous password, and the generated session id. -/
structure Fresh where
  anonEmailSeed : String
  anonPasswordSeed : String
  newSessionId : String
deriving DecidableEq, Repr

/-- The seed history of a freshly created session (`main.py` line 145). -/
def seedHistory : List Message :=
  [{ role := "system", content := "I am Deep Search Agent!" }]

/-- Step 1 of `handle_chat_message` (lines 111-114): a provided `user_id`
is kept only if the user exists. -/
def resolveUserId (db : Db) (requested : Option String) : Option String :=
  match requested with
  | some uid => if (userFindUnique db uid).isSome then some uid else none
  | none => none

/-- Step 2 (lines 117-124): auto-create an anonymous user; the stored
password is `pwd_context.hash` of a fresh uuid hex.  Returns the updated
store and the new user's id. -/
def autoCreateAnonUser (db : Db) (hash : String → String) (fresh : Fresh) :
    Db × String :=
  let anon_email := "anon_" ++ fresh.anonEmailSeed ++ "@example.com"
  let anon_password := hash fresh.anonPasswordSeed
  let p := userCreate db anon_email anon_password false .objNil .objNil
    "admin" "inactive" "free"
  (p.1, p.2.id)

/-- Step 3 (lines 127-133): reuse the caller's most recent session when no
`session_id` was supplied, else generate a fresh uuid. -/
def resolveSessionId (db : Db) (user_id : String) (requested : Option String)
    (freshSid : String) : String :=
  match requested with
  | some sid => sid
  | none =>
      match chatFindFirstByUserDesc db user_id with
      | some last => last.session_id
      | none => freshSid

/-- Steps 5-8 (lines 170-206): append the user message to the in-memory
history, run the agent, and on success append the reply and persist the
whole list with one `chatsession.update`; on an agent exception nothing
further is written and the handler raises HTTP 500.  `sessionPk` is the
primary key of the session row fetched or created in step 4, `stored` its
history as read there. -/
def chatTurnFinish (db : Db) (agentRun : List Message → Except String String)
    (sessionPk : Nat) (stored : List Message) (session_id user_id message : String) :
    Db × Except HttpError ChatOk :=
  match agentRun (stored ++ [{ role := "user", content := message }]) with
  | .ok reply =>
      (chatUpdateHistory db sessionPk
         (stored ++ [{ role := "user", content := message }] ++
           [{ role := "assistant", content := reply }]),
       .ok { sessionId := session_id, userId := user_id,
             prompt := message, reply := reply })
  | .error e => (db, .error { status := 500, detail := e })

/-- `POST /chat` (`handle_chat_message`, lines 109-206).  The notification
push of lines 151-160 is wrapped in try/except in the source; in this pure
model the store operations cannot fail, so the push always happens when
the user record exists. -/
def handle_chat_message (db : Db) (hash : String → String)
    (agentRun : List Message → Except String String) (fresh : Fresh)
    (req : ChatRequest) : Db × Except HttpError ChatOk :=
  let p1 : Db × String :=
    match resolveUserId db req.user_id with
    | some uid => (db, uid)
    | none => autoCreateAnonUser db hash fresh
  let db1 := p1.1
  let user_id := p1.2
  let session_id := resolveSessionId db1 user_id req.session_id fresh.newSessionId
  let message := req.message
  match chatFindUnique db1 session_id with
  | none =>
      let pc := chatCreate db1 session_id user_id seedHistory
      let db2 := pc.1
      let db3 :=
        match userFindUnique db2 user_id with
        | some u =>
            userUpdateNotifications db2 user_id
              (u.notifications ++ [JValue.objCons "user_id" (JValue.str user_id) JValue.objNil])
        | none => db2
      chatTurnFinish db3 agentRun pc.2.id pc.2.history session_id user_id message
  | some session =>
      let db2 :=
        if session.user_id ≠ user_id then chatUpdateOwner db1 session.id user_id
        else db1
      chatTurnFinish db2 agentRun session.id session.history session_id user_id message

/-- `GET /sessions/{session_id}` (lines 211-215). -/
def get_session_history (db : Db) (session_id : String) :
    Except HttpError (String × List Message) :=
  match chatFindUnique db session_id with
  | none => .error { status := 404, detail := "Session not found" }
  | some s => .ok (session_id, s.history)

/-- `DELETE /sessions/{session_id}` (lines 219-223). -/
def delete_session (db : Db) (session_id : String) :
    Db × Except HttpError Bool :=
  let p := chatDeleteManyBySid db session_id
  if p.2 == 0 then (p.1, .error { status := 404, detail := "Session not found" })
  else (p.1, .ok true)

/-- `GET /users/{user_id}/sessions` (lines 227-237): the listed
`{sessionId, history}` pairs. -/
def get_sessions_by_user (db : Db) (user_id : String) :
    List (String × List Message) :=
  (chatFindManyByUser db user_id).map (fun s => (s.session_id, s.history))

/-- `DELETE /users/{user_id}/sessions` (lines 241-243). -/
def delete_sessions_by_user (db : Db) (user_id : String) : Db × Nat :=
  chatDeleteManyByUser db user_id

/-- The request body of `POST /users` with its pydantic defaults
(`UserModel`, lines 76-88); the fields excluded from the create call
(lines 262) are not represented. -/
structure UserModel where
  email : String
  password : String
  isSubscribed : Bool
  subscription : JValue
  freePlanUsage : JValue
  role : String
  paymentStatus : String
  plan : String
deriving DecidableEq, Repr

/-- `POST /users` (`create_user`, lines 261-268): the stored password is
`pwd_context.hash(user.password)`; returns the new user's id. -/
def create_user (db : Db) (hash : String → String) (user : UserModel) :
    Db × String :=
  let p := userCreate db user.email (hash user.password) user.isSubscribed
    user.subscription user.freePlanUsage user.role user.paymentStatus user.plan
  (p.1, p.2.id)

/-- `GET /users/{user_id}` (`get_user`, lines 272-290): the exact
key/value list the handler returns; the password column is omitted. -/
def get_user (db : Db) (user_id : String) :
    Except HttpError (List (String × JValue)) :=
  match userFindUnique db user_id with
  | none => .error { status := 404, detail := "User not found" }
  | some u =>
      .ok [("userId", .str u.id),
           ("email", .str u.email),
           ("isSubscribed", .jbool u.isSubscribed),
           ("subscription", u.subscription),
           ("freePlanUsage", u.freePlanUsage),
           ("role", .str u.role),
           ("agentSessions", JValue.ofList u.agentSessions),
           ("notifications", JValue.ofList u.notifications),
           ("createdAt", .num u.createdAt),
           ("updatedAt", .num u.updatedAt),
           ("paymentStatus", .str u.paymentStatus),
           ("plan", .str u.plan)]

/-- The whitelist of `PUT /users/{user_id}` (`main.py` lines 300-311). -/
def valid_fields : List String :=
  ["email", "password", "isSubscribed", "subscription", "freePlanUsage",
   "role", "paymentStatus", "plan", "agentSessions", "notifications"]

/-- Python dict assignment `d[k] = v`: overwrite the key if present, else
append the entry. -/
def dictSet (d : List (String × JValue)) (k : String) (v : JValue) :
    List (String × JValue) :=
  if d.any (fun kv => kv.1 == k) then
    d.map (fun kv => if kv.1 == k then (k, v) else kv)
  else d ++ [(k, v)]

/-- The plaintext handed to `pwd_context.hash` in the update handler.  The
source passes the JSON value through; hashing a non-string raises there,
a path no claim exercises, rendered here as hashing the empty string. -/
def jAsString : JValue → String
  | .str s => s
  | _ => ""

/-- Lines 314-328: build the clean `data` dict — skip unknown keys, hash a
new password, keep everything else. -/
def buildUpdateData (hash : String → String) (up : List (String × JValue)) :
    List (String × JValue) :=
  up.foldl
    (fun data kv =>
      if valid_fields.contains kv.1 then
        if kv.1 == "password" then
          dictSet data "password" (JValue.str (hash (jAsString kv.2)))
        else
          dictSet data kv.1 kv.2
      else data)
    []

/-- Write one `data` entry into a user row (the column assignment inside
`prisma.user.update_many`).  A value of the wrong shape for a typed column
would be rejected by the store; no claim exercises that, and it leaves the
row unchanged here. -/
def setField (u : User) (k : String) (v : JValue) : User :=
  if k == "email" then
    match v with | .str s => { u with email := s } | _ => u
  else if k == "password" then
    match v with | .str s => { u with password := s } | _ => u
  else if k == "isSubscribed" then
    match v with | .jbool b => { u with isSubscribed := b } | _ => u
  else if k == "subscription" then { u with subscription := v }
  else if k == "freePlanUsage" then { u with freePlanUsage := v }
  else if k == "role" then
    match v with | .str s => { u with role := s } | _ => u
  else if k == "paymentStatus" then
    match v with | .str s => { u with paymentStatus := s } | _ => u
  else if k == "plan" then
    match v with | .str s => { u with plan := s } | _ => u
  else if k == "agentSessions" then
    match v.toList with | some xs => { u with agentSessions := xs } | none => u
  else if k == "notifications" then
    match v.toList with | some xs => { u with notifications := xs } | none => u
  else if k == "updatedAt" then
    match v with | .num n => { u with updatedAt := n } | _ => u
  else u

/-- Apply a whole `data` dict to a user row. -/
def applyUpdateData (u : User) (data : List (String × JValue)) : User :=
  data.foldl (fun u kv => setField u kv.1 kv.2) u

/-- `PUT /users/{user_id}` (`update_user`, lines 295-341): filter the body
through the whitelist, force `updatedAt`, run `update_many` on the matching
rows, 404 when nothing matched. -/
def update_user (db : Db) (hash : String → String) (now : Nat)
    (user_id : String) (up : List (String × JValue)) :
    Db × Except HttpError String :=
  if (db.users.filter (fun u => u.id == user_id)).length == 0 then
    ({ db with users := db.users.map (fun u =>
        if u.id == user_id then
          applyUpdateData u
            (dictSet (buildUpdateData hash up) "updatedAt" (JValue.num now))
        else u) },
     .error { status := 404, detail := "User not found" })
  else
    ({ db with users := db.users.map (fun u =>
        if u.id == user_id then
          applyUpdateData u
            (dictSet (buildUpdateData hash up) "updatedAt" (JValue.num now))
        else u) },
     .ok "updated")

/-- `DELETE /users/{user_id}` (`delete_user`, lines 347-352): only
`prisma.user.delete_many` runs; the `chatsession` table is untouched. -/
def delete_user (db : Db) (user_id : String) : Db × Except HttpError Bool :=
  let p := userDeleteMany db user_id
  if p.2 == 0 then
    (p.1, .error { status := 404, detail := "User not found" })
  else (p.1, .ok true)

/-! ### Concurrent chat turns on one session

`handle_chat_message` touches a session's stored history with two separate
store operations: `chatsession.find_unique` (line 138) reads it into the
request's memory, and `chatsession.update` (lines 183-186) writes back the
locally extended copy wholesale.  The agent step between them is purely
local.  The machine below runs several such turns against one shared
history under an arbitrary interleaving of their store operations. -/

/-- The user message and agent reply of one concurrent turn. -/
structure TurnReq where
  userMsg : String
  reply : String
deriving DecidableEq, Repr

/-- Program counter and local history copy of one in-flight turn:
pc 0 = about to read, pc 1 = about to write, pc 2 = done. -/
structure TurnState where
  pc : Nat
  loc : List Message
deriving DecidableEq, Repr

/-- A turn that has not yet performed its read. -/
def turnInit : TurnState := { pc := 0, loc := [] }

/-- One atomic store operation of turn `r`: the read of line 138, then the
blind write of `loc ++ [user, assistant]` of lines 183-186. -/
def turnStep (hist : List Message) (r : TurnReq) (ts : TurnState) :
    List Message × TurnState :=
  if ts.pc == 0 then (hist, { pc := 1, loc := hist })
  else if ts.pc == 1 then
    (ts.loc ++ [{ role := "user", content := r.userMsg },
                { role := "assistant", content := r.reply }],
     { pc := 2, loc := ts.loc })
  else (hist, ts)

/-- Run a schedule over the shared history: each schedule entry names the
turn that performs its next store operation. -/
def runSchedule (reqs : List TurnReq) :
    List Message → List TurnState → List Nat → List Message
  | hist, _, [] => hist
  | hist, sts, i :: rest =>
      match reqs[i]?, sts[i]? with
      | some r, some ts =>
          let p := turnStep hist r ts
          runSchedule reqs p.1 (sts.set i p.2) rest
      | _, _ => runSchedule reqs hist sts rest

/-- The fully sequential schedule: turn 0 runs to completion, then turn 1,
and so on. -/
def seqSchedule (n : Nat) : List Nat :=
  (List.range n).flatMap (fun i => [i, i])

/-! ### Concrete fixtures used by witnesses and counterexamples -/

/-- An environment with the firecrawl dependency installed and an API key set. -/
def toolEnvReady : ToolEnv := { firecrawlInstalled := true, fcApiKey := some "k" }

/-- An environment in which the firecrawl import failed. -/
def toolEnvNoFirecrawl : ToolEnv := { firecrawlInstalled := false, fcApiKey := some "k" }

/-- An environment with the dependency installed but no API key. -/
def toolEnvNoKey : ToolEnv := { firecrawlInstalled := true, fcApiKey := none }

/-- A provider that always succeeds. -/
def fcProbeOk : FcCall → Except String FcData :=
  fun _ => .ok { finalAnalysis := some "A", sources := [] }

/-- A provider that always raises. -/
def fcProbeRaise : FcCall → Except String FcData := fun _ => .error "boom"

/-- The seed system message as a value. -/
def sysSeedMsg : Message := { role := "system", content := "I am Deep Search Agent!" }

/-- A stored user for concrete runs. -/
def cexUser : User :=
  { id := "u1", email := "a@example.com", password := "hp", isSubscribed := false,
    subscription := .objNil, freePlanUsage := .objNil, role := "admin",
    paymentStatus := "inactive", plan := "free", agentSessions := [],
    notifications := [], createdAt := 0, updatedAt := 0 }

/-- A second stored user, owner-transfer target. -/
def cexUser2 : User :=
  { id := "u2", email := "b@example.com", password := "hp2", isSubscribed := false,
    subscription := .objNil, freePlanUsage := .objNil, role := "admin",
    paymentStatus := "inactive", plan := "free", agentSessions := [],
    notifications := [], createdAt := 0, updatedAt := 0 }

/-- A stored session owned by cexUser with just the seed message. -/
def cexSession : ChatSession :=
  { id := 0, session_id := "s1", user_id := "u1",
    history := [sysSeedMsg], created_at := 0 }

/-- A store with one user and one session. -/
def cexDb : Db := { users := [cexUser], sessions := [cexSession], nextId := 1 }

/-- A store with two users and one session owned by the first. -/
def cexDb2 : Db := { users := [cexUser, cexUser2], sessions := [cexSession], nextId := 1 }

/-- An agent step that always raises. -/
def agentBoom : List Message → Except String String := fun _ => .error "boom"

/-- An agent step that always replies the word done. -/
def agentEcho : List Message → Except String String := fun _ => .ok "done"

/-- A stand-in one-way hash. -/
def idHash : String → String := fun s => "hashed:" ++ s

/-- Fixed uuid draws for concrete runs. -/
def noFresh : Fresh :=
  { anonEmailSeed := "f1", anonPasswordSeed := "f2", newSessionId := "f3" }

/-- The profile list GET /users/u1 returns on cexDb. -/
def cexUserFields : List (String × JValue) :=
  [("userId", .str "u1"),
   ("email", .str "a@example.com"),
   ("isSubscribed", .jbool false),
   ("subscription", .objNil),
   ("freePlanUsage", .objNil),
   ("role", .str "admin"),
   ("agentSessions", .arrNil),
   ("notifications", .arrNil),
   ("createdAt", .num 0),
   ("updatedAt", .num 0),
   ("paymentStatus", .str "inactive"),
   ("plan", .str "free")]


/-! ### Auxiliary list lemmas -/

/-- Mapping with a function that preserves the search predicate maps the
result of `find?`. -/
theorem find?_map_pres {α : Type} (p : α → Bool) (f : α → α)
    (hpf : ∀ a, p (f a) = p a) :
    ∀ (l : List α) (u : α), l.find? p = some u →
      (l.map f).find? p = some (f u) := by
  intro l
  induction l with
  | nil => intro u h; cases h
  | cons a t ih =>
      intro u h
      cases hpa : p a with
      | true =>
          rw [List.find?_cons_of_pos _ hpa] at h
          cases h
          simp only [List.map_cons]
          exact List.find?_cons_of_pos _ (by rw [hpf a]; exact hpa)
      | false =>
          rw [List.find?_cons_of_neg _ (by simp [hpa])] at h
          simp only [List.map_cons]
          rw [List.find?_cons_of_neg _ (by simp [hpf a, hpa])]
          exact ih u h

/-- `find?` over a mapped snoc whose old elements all fail the predicate
finds the mapped new element. -/
theorem find?_map_snoc {α : Type} (p : α → Bool) (f : α → α) (b : α)
    (hb : p (f b) = true) :
    ∀ l : List α, (∀ a ∈ l, p (f a) = false) →
      ((l ++ [b]).map f).find? p = some (f b) := by
  intro l
  induction l with
  | nil =>
      intro _
      simp only [List.nil_append, List.map_cons, List.map_nil]
      exact List.find?_cons_of_pos _ hb
  | cons a t ih =>
      intro h
      simp only [List.cons_append, List.map_cons]
      rw [List.find?_cons_of_neg _ (by simp [h a (List.mem_cons_self a t)])]
      exact ih (fun x hx => h x (List.mem_cons_of_mem a hx))

/-- A successful `find?` forces a non-empty filtration. -/
theorem filter_length_beq_zero_of_find? {α : Type} (p : α → Bool) (l : List α)
    (u : α) (h : l.find? p = some u) : ((l.filter p).length == 0) = false := by
  have hmem : u ∈ l := List.mem_of_find?_eq_some h
  have hpu : p u := List.find?_some h
  have hin : u ∈ l.filter p := List.mem_filter.mpr ⟨hmem, hpu⟩
  cases hl : l.filter p with
  | nil => rw [hl] at hin; cases hin
  | cons x xs => rfl

/-- The whitelist fold ignores every entry whose key is not whitelisted. -/
theorem buildUpdateData_invalid_keys (hash : String → String) :
    ∀ (up : List (String × JValue)) (data : List (String × JValue)),
      (∀ kv ∈ up, valid_fields.contains kv.1 = false) →
      up.foldl
        (fun data kv =>
          if valid_fields.contains kv.1 then
            if kv.1 == "password" then
              dictSet data "password" (JValue.str (hash (jAsString kv.2)))
            else dictSet data kv.1 kv.2
          else data) data = data := by
  intro up
  induction up with
  | nil => intro data _; rfl
  | cons kv t ih =>
      intro data h
      simp only [List.foldl_cons, h kv (List.mem_cons_self kv t),
        Bool.false_eq_true, if_false, ite_false]
      exact ih data (fun x hx => h x (List.mem_cons_of_mem kv hx))


/-! ### Equations for the chat handler and the tool body -/

/-- Create branch of `handle_chat_message` (valid user, session absent). -/
theorem handle_chat_create_eq (db : Db) (hash : String → String)
    (agentRun : List Message → Except String String) (fresh : Fresh)
    (uid sid msg : String) (u : User)
    (hu : userFindUnique db uid = some u)
    (h1 : chatFindUnique db sid = none) :
    handle_chat_message db hash agentRun fresh
      { message := msg, session_id := some sid, user_id := some uid } =
    chatTurnFinish
      (userUpdateNotifications (chatCreate db sid uid seedHistory).1 uid
        (u.notifications ++ [JValue.objCons "user_id" (JValue.str uid) JValue.objNil]))
      agentRun db.nextId seedHistory sid uid msg := by
  simp only [handle_chat_message, resolveUserId, resolveSessionId, hu,
    Option.isSome_some, ite_true, if_true, h1]
  rw [show userFindUnique (chatCreate db sid uid seedHistory).1 uid = some u from hu]
  rfl

/-- Existing-session branch of `handle_chat_message` (valid user). -/
theorem handle_chat_existing_eq (db : Db) (hash : String → String)
    (agentRun : List Message → Except String String) (fresh : Fresh)
    (uid sid msg : String) (u : User) (s : ChatSession)
    (hu : userFindUnique db uid = some u)
    (hs : chatFindUnique db sid = some s) :
    handle_chat_message db hash agentRun fresh
      { message := msg, session_id := some sid, user_id := some uid } =
    chatTurnFinish (if s.user_id ≠ uid then chatUpdateOwner db s.id uid else db)
      agentRun s.id s.history sid uid msg := by
  simp only [handle_chat_message, resolveUserId, resolveSessionId, hu,
    Option.isSome_some, ite_true, if_true, hs]

/-- Success path of the turn tail: one write of the whole extended list. -/
theorem chatTurnFinish_ok (db : Db)
    (agentRun : List Message → Except String String)
    (pk : Nat) (stored : List Message) (sid uid msg reply : String)
    (h : agentRun (stored ++ [{ role := "user", content := msg }]) = .ok reply) :
    chatTurnFinish db agentRun pk stored sid uid msg =
      (chatUpdateHistory db pk
         (stored ++ [{ role := "user", content := msg }] ++
           [{ role := "assistant", content := reply }]),
       .ok { sessionId := sid, userId := uid, prompt := msg, reply := reply }) := by
  unfold chatTurnFinish
  rw [h]

/-- Failure path of the turn tail: nothing further is written, HTTP 500. -/
theorem chatTurnFinish_error (db : Db)
    (agentRun : List Message → Except String String)
    (pk : Nat) (stored : List Message) (sid uid msg e : String)
    (h : agentRun (stored ++ [{ role := "user", content := msg }]) = .error e) :
    chatTurnFinish db agentRun pk stored sid uid msg =
      (db, .error { status := 500, detail := e }) := by
  unfold chatTurnFinish
  rw [h]

/-- Looking up the session after create-then-update-history. -/
theorem chatFindUnique_create_then_update (db : Db) (sid uid : String)
    (seed h2 : List Message) (ns : List JValue)
    (h1 : chatFindUnique db sid = none) :
    chatFindUnique
      (chatUpdateHistory
        (userUpdateNotifications (chatCreate db sid uid seed).1 uid ns)
        db.nextId h2) sid =
      some { id := db.nextId, session_id := sid, user_id := uid,
             history := h2, created_at := db.nextId } := by
  have hl : ∀ a ∈ db.sessions,
      (((fun a : ChatSession =>
          if a.id == db.nextId then { a with history := h2 } else a) a).session_id
        == sid) = false := by
    intro a ha
    have hpa : ¬ (a.session_id == sid) = true := List.find?_eq_none.mp h1 a ha
    have hpa2 : (a.session_id == sid) = false := Bool.eq_false_iff.mpr hpa
    cases hc : a.id == db.nextId <;> simp [hc, hpa2]
  have hsnoc := find?_map_snoc
    (fun a : ChatSession => a.session_id == sid)
    (fun a : ChatSession => if a.id == db.nextId then { a with history := h2 } else a)
    { id := db.nextId, session_id := sid, user_id := uid,
      history := seed, created_at := db.nextId }
    (by simp) db.sessions hl
  rw [show (fun a : ChatSession =>
        if a.id == db.nextId then { a with history := h2 } else a)
      { id := db.nextId, session_id := sid, user_id := uid,
        history := seed, created_at := db.nextId } =
      { id := db.nextId, session_id := sid, user_id := uid,
        history := h2, created_at := db.nextId } from by simp] at hsnoc
  exact hsnoc

/-- Looking up the session after the (conditional) ownership write. -/
theorem chatFindUnique_after_owner (db : Db) (sid uid : String)
    (s : ChatSession) (hs : chatFindUnique db sid = some s) :
    chatFindUnique (if s.user_id ≠ uid then chatUpdateOwner db s.id uid else db)
      sid =
      some (if s.user_id ≠ uid then { s with user_id := uid } else s) := by
  by_cases hown : s.user_id ≠ uid
  · rw [if_pos hown, if_pos hown]
    have hstep := find?_map_pres
      (fun a : ChatSession => a.session_id == sid)
      (fun a : ChatSession => if a.id == s.id then { a with user_id := uid } else a)
      (by intro a; cases hc : a.id == s.id <;> simp [hc])
      db.sessions s hs
    rw [show (fun a : ChatSession =>
          if a.id == s.id then { a with user_id := uid } else a) s =
        { s with user_id := uid } from by simp] at hstep
    exact hstep
  · rw [if_neg hown, if_neg hown]
    exact hs

/-- Looking up the session after the ownership write and the history
write of a successful turn. -/
theorem chatFindUnique_owner_then_update (db : Db) (sid uid : String)
    (s : ChatSession) (h2 : List Message)
    (hs : chatFindUnique db sid = some s) :
    chatFindUnique
      (chatUpdateHistory (if s.user_id ≠ uid then chatUpdateOwner db s.id uid else db)
        s.id h2) sid =
      some (if s.user_id ≠ uid then { s with user_id := uid, history := h2 }
            else { s with history := h2 }) := by
  have hbase := chatFindUnique_after_owner db sid uid s hs
  by_cases hown : s.user_id ≠ uid
  · rw [if_pos hown, if_pos hown] at hbase
    rw [if_pos hown, if_pos hown]
    have hstep := find?_map_pres
      (fun a : ChatSession => a.session_id == sid)
      (fun a : ChatSession => if a.id == s.id then { a with history := h2 } else a)
      (by intro a; cases hc : a.id == s.id <;> simp [hc])
      (chatUpdateOwner db s.id uid).sessions { s with user_id := uid } hbase
    simp only [beq_self_eq_true, if_true, ite_true] at hstep
    exact hstep
  · rw [if_neg hown, if_neg hown] at hbase
    rw [if_neg hown, if_neg hown]
    have hstep := find?_map_pres
      (fun a : ChatSession => a.session_id == sid)
      (fun a : ChatSession => if a.id == s.id then { a with history := h2 } else a)
      (by intro a; cases hc : a.id == s.id <;> simp [hc])
      db.sessions s hbase
    simp only [beq_self_eq_true, if_true, ite_true] at hstep
    exact hstep

/-- Failure contract of the shared tool body: every failure cause yields a
structured dictionary with `success=false` and an `error` message (the
Lean functions are total, so no exception can escape the tool). -/
theorem firecrawlToolBody_failure (env : ToolEnv)
    (fc : FcCall → Except String FcData) (q : String) (a b c : Nat) :
    (env.firecrawlInstalled = false →
      (firecrawlToolBody env fc q a b c).1.success = false ∧
      (firecrawlToolBody env fc q a b c).1.error =
        some "Deep research tool dependency missing.") ∧
    (env.firecrawlInstalled = true → env.fcApiKey = none →
      (firecrawlToolBody env fc q a b c).1.success = false ∧
      (firecrawlToolBody env fc q a b c).1.error =
        some "FireCrawl API key not configured.") ∧
    (∀ k e, env.firecrawlInstalled = true → env.fcApiKey = some k →
      fc { query := q, max_depth := a, time_limit := b, max_urls := c } = .error e →
      (firecrawlToolBody env fc q a b c).1.success = false ∧
      (firecrawlToolBody env fc q a b c).1.error = some e) := by
  obtain ⟨inst, key⟩ := env
  refine ⟨?_, ?_, ?_⟩
  · intro h
    cases h
    exact ⟨rfl, rfl⟩
  · intro h1 h2
    cases h1
    cases h2
    exact ⟨rfl, rfl⟩
  · intro k e h1 h2 h3
    cases h1
    cases h2
    unfold firecrawlToolBody
    rw [h3]
    exact ⟨rfl, rfl⟩


/-! ### The claims -/

/-- C1: the claim asserts every history mutation for a session runs as one atomic read-modify-write, so N concurrent turns grow the history by 2N.  The handler instead reads the history (line 138) and later blindly writes back the locally extended copy (lines 183-186).  Under the interleaving read1,read2,write1,write2 of two concurrent turns on a session seeded with one message, the final history holds only the second turn's pair: length 3, not 1 + 2*2 = 5, so turn 1 is lost.  The fully sequential schedule does reach length 5. -/
theorem concurrent_chat_turns_lost_update :
    runSchedule
      [{ userMsg := "m1", reply := "r1" }, { userMsg := "m2", reply := "r2" }]
      [sysSeedMsg] [turnInit, turnInit] [0, 1, 0, 1] =
      [sysSeedMsg, { role := "user", content := "m2" },
       { role := "assistant", content := "r2" }] ∧
    (runSchedule
      [{ userMsg := "m1", reply := "r1" }, { userMsg := "m2", reply := "r2" }]
      [sysSeedMsg] [turnInit, turnInit] [0, 1, 0, 1]).length = 3 ∧
    ¬ (runSchedule
      [{ userMsg := "m1", reply := "r1" }, { userMsg := "m2", reply := "r2" }]
      [sysSeedMsg] [turnInit, turnInit] [0, 1, 0, 1]).length =
        [sysSeedMsg].length + 2 * 2 ∧
    runSchedule
      [{ userMsg := "m1", reply := "r1" }, { userMsg := "m2", reply := "r2" }]
      [sysSeedMsg] [turnInit, turnInit] (seqSchedule 2) =
      [sysSeedMsg, { role := "user", content := "m1" },
       { role := "assistant", content := "r1" },
       { role := "user", content := "m2" },
       { role := "assistant", content := "r2" }] := by
  refine ⟨rfl, rfl, by decide, rfl⟩

/-- C2, counterexample: on a store holding session s1 with only the seed message, an agent step that raises yields HTTP 500, and the stored history read back is still just the seed: the user message appended in step 5 was never persisted, contradicting the claim that it remains in the stored history. -/
theorem chat_error_message_not_persisted_cex :
    (handle_chat_message cexDb idHash agentBoom noFresh
        { message := "hello", session_id := some "s1", user_id := some "u1" }).2 =
      .error { status := 500, detail := "boom" } ∧
    get_session_history (handle_chat_message cexDb idHash agentBoom noFresh
        { message := "hello", session_id := some "s1", user_id := some "u1" }).1 "s1" =
      .ok ("s1", [sysSeedMsg]) ∧
    ({ role := "user", content := "hello" } : Message) ∉ [sysSeedMsg] := by
  refine ⟨rfl, rfl, by decide⟩

/-- C2, amended: an exception during the agent step surfaces as a single HTTP 500 and leaves the session's persisted history exactly as it was before the request; the user message of step 5 exists only in the request's memory (it is persisted together with the reply in step 7, which never runs), so nothing is lost from or corrupted in the stored history, but the user message is not persisted either. -/
theorem chat_error_500_history_unchanged (db : Db) (hash : String → String)
    (agentRun : List Message → Except String String) (fresh : Fresh)
    (uid sid msg e : String) (u : User) (s : ChatSession)
    (hu : userFindUnique db uid = some u)
    (hs : chatFindUnique db sid = some s)
    (ha : agentRun (s.history ++ [{ role := "user", content := msg }]) = .error e) :
    (handle_chat_message db hash agentRun fresh
        { message := msg, session_id := some sid, user_id := some uid }).2 =
      .error { status := 500, detail := e } ∧
    ∃ s2, chatFindUnique (handle_chat_message db hash agentRun fresh
        { message := msg, session_id := some sid, user_id := some uid }).1 sid =
      some s2 ∧ s2.history = s.history := by
  rw [handle_chat_existing_eq db hash agentRun fresh uid sid msg u s hu hs,
      chatTurnFinish_error _ agentRun s.id s.history sid uid msg e ha]
  refine ⟨rfl, ?_⟩
  have hfind := chatFindUnique_after_owner db sid uid s hs
  by_cases hown : s.user_id ≠ uid
  · rw [if_pos hown]
    rw [if_pos hown, if_pos hown] at hfind
    exact ⟨_, hfind, rfl⟩
  · rw [if_neg hown]
    rw [if_neg hown, if_neg hown] at hfind
    exact ⟨_, hfind, rfl⟩

/-- Witness for C2 amended at a concrete store and failing agent. -/
theorem chat_error_500_history_unchanged_witness :
    (handle_chat_message cexDb idHash agentBoom noFresh
        { message := "x", session_id := some "s1", user_id := some "u1" }).2 =
      .error { status := 500, detail := "boom" } ∧
    ∃ s2, chatFindUnique (handle_chat_message cexDb idHash agentBoom noFresh
        { message := "x", session_id := some "s1", user_id := some "u1" }).1 "s1" =
      some s2 ∧ s2.history = cexSession.history :=
  chat_error_500_history_unchanged cexDb idHash agentBoom noFresh "u1" "s1" "x" "boom"
    cexUser cexSession rfl rfl rfl

/-- C3, counterexample: quick_search called with max_depth=7, time_limit=200, max_urls=3 invokes the provider with 5/180/10, not the caller's values. -/
theorem research_topic_ignores_caller_args_cex :
    (research_topic toolEnvReady fcProbeOk "btc" 7 200 3).2 =
      [{ query := "btc", max_depth := 5, time_limit := 180, max_urls := 10 }] ∧
    ¬ (research_topic toolEnvReady fcProbeOk "btc" 7 200 3).2 =
      [{ query := "btc", max_depth := 7, time_limit := 200, max_urls := 3 }] :=
  ⟨rfl, by decide⟩

/-- C3, amended: the three research tools accept caller-supplied max_depth, time_limit and max_urls but ignore them: whenever the provider is reached it is invoked with the hard-coded literals 5/180/10 (quick_search) and 10/300/50 (deep_research and financial_data), and the Python parameters have no declared defaults. -/
theorem research_tools_fixed_provider_args (env : ToolEnv)
    (fc : FcCall → Except String FcData) (query : String)
    (max_depth time_limit max_urls : Nat) :
    (research_topic env fc query max_depth time_limit max_urls).2 =
      (if env.firecrawlInstalled && env.fcApiKey.isSome then
        [{ query := query, max_depth := 5, time_limit := 180, max_urls := 10 }]
       else []) ∧
    (deep_research env fc query max_depth time_limit max_urls).2 =
      (if env.firecrawlInstalled && env.fcApiKey.isSome then
        [{ query := query, max_depth := 10, time_limit := 300, max_urls := 50 }]
       else []) ∧
    (get_financial_data env fc query max_depth time_limit max_urls).2 =
      (if env.firecrawlInstalled && env.fcApiKey.isSome then
        [{ query := query, max_depth := 10, time_limit := 300, max_urls := 50 }]
       else []) := by
  obtain ⟨inst, key⟩ := env
  refine ⟨?_, ?_, ?_⟩ <;>
  · cases inst <;> cases key <;>
      simp only [research_topic, deep_research, get_financial_data,
        firecrawlToolBody, Option.isSome_some, Option.isSome_none,
        Bool.and_true, Bool.and_false, Bool.true_and, Bool.false_and,
        Bool.not_true, Bool.not_false, ite_true, ite_false, Bool.false_eq_true,
        if_true, if_false] <;>
      first
      | rfl
      | (cases fc _ <;> rfl)

/-- C4: a POST /chat with an unknown session_id creates the session seeded with exactly one system message, and GET /sessions afterwards returns exactly the seed system message, the user message and the assistant reply in order; on an existing session a successful turn returns the prior history unchanged and in order with exactly the new user message and assistant reply appended at the tail. -/
theorem chat_round_trip_append_only (db : Db) (hash : String → String)
    (agentRun : List Message → Except String String) (fresh : Fresh)
    (uid sid msg reply : String) (u : User) (s : ChatSession)
    (hu : userFindUnique db uid = some u) :
    (chatFindUnique db sid = none →
      agentRun (seedHistory ++ [{ role := "user", content := msg }]) = .ok reply →
      (handle_chat_message db hash agentRun fresh
          { message := msg, session_id := some sid, user_id := some uid }).2 =
        .ok { sessionId := sid, userId := uid, prompt := msg, reply := reply } ∧
      get_session_history (handle_chat_message db hash agentRun fresh
          { message := msg, session_id := some sid, user_id := some uid }).1 sid =
        .ok (sid, [{ role := "system", content := "I am Deep Search Agent!" },
                   { role := "user", content := msg },
                   { role := "assistant", content := reply }])) ∧
    (chatFindUnique db sid = some s →
      agentRun (s.history ++ [{ role := "user", content := msg }]) = .ok reply →
      get_session_history (handle_chat_message db hash agentRun fresh
          { message := msg, session_id := some sid, user_id := some uid }).1 sid =
        .ok (sid, s.history ++ [{ role := "user", content := msg },
                                { role := "assistant", content := reply }])) := by
  constructor
  · intro h1 h2
    rw [handle_chat_create_eq db hash agentRun fresh uid sid msg u hu h1,
        chatTurnFinish_ok _ agentRun db.nextId seedHistory sid uid msg reply h2]
    refine ⟨rfl, ?_⟩
    show get_session_history
      (chatUpdateHistory
        (userUpdateNotifications (chatCreate db sid uid seedHistory).1 uid
          (u.notifications ++ [JValue.objCons "user_id" (JValue.str uid) JValue.objNil]))
        db.nextId
        (seedHistory ++ [{ role := "user", content := msg }] ++
          [{ role := "assistant", content := reply }])) sid = _
    have hfind := chatFindUnique_create_then_update db sid uid seedHistory
        (seedHistory ++ [{ role := "user", content := msg }] ++
          [{ role := "assistant", content := reply }])
        (u.notifications ++ [JValue.objCons "user_id" (JValue.str uid) JValue.objNil]) h1
    unfold get_session_history
    rw [hfind]
    rfl
  · intro hsx h2
    rw [handle_chat_existing_eq db hash agentRun fresh uid sid msg u s hu hsx,
        chatTurnFinish_ok _ agentRun s.id s.history sid uid msg reply h2]
    show get_session_history
      (chatUpdateHistory (if s.user_id ≠ uid then chatUpdateOwner db s.id uid else db)
        s.id
        (s.history ++ [{ role := "user", content := msg }] ++
          [{ role := "assistant", content := reply }])) sid = _
    have hfind := chatFindUnique_owner_then_update db sid uid s
        (s.history ++ [{ role := "user", content := msg }] ++
          [{ role := "assistant", content := reply }]) hsx
    unfold get_session_history
    rw [hfind]
    by_cases hown : s.user_id ≠ uid
    · rw [if_pos hown]
      simp [List.append_assoc]
    · rw [if_neg hown]
      simp [List.append_assoc]

/-- Witness for C4: both the fresh-session round trip and the append-only frame on a concrete store. -/
theorem chat_round_trip_append_only_witness :
    (handle_chat_message cexDb idHash agentEcho noFresh
        { message := "hi", session_id := some "s2", user_id := some "u1" }).2 =
      .ok { sessionId := "s2", userId := "u1", prompt := "hi", reply := "done" } ∧
    get_session_history (handle_chat_message cexDb idHash agentEcho noFresh
        { message := "hi", session_id := some "s2", user_id := some "u1" }).1 "s2" =
      .ok ("s2", [{ role := "system", content := "I am Deep Search Agent!" },
                  { role := "user", content := "hi" },
                  { role := "assistant", content := "done" }]) ∧
    get_session_history (handle_chat_message cexDb idHash agentEcho noFresh
        { message := "hi", session_id := some "s1", user_id := some "u1" }).1 "s1" =
      .ok ("s1", cexSession.history ++ [{ role := "user", content := "hi" },
                  { role := "assistant", content := "done" }]) := by
  refine ⟨?_, ?_, ?_⟩
  · exact ((chat_round_trip_append_only cexDb idHash agentEcho noFresh
      "u1" "s2" "hi" "done" cexUser cexSession rfl).1 rfl rfl).1
  · exact ((chat_round_trip_append_only cexDb idHash agentEcho noFresh
      "u1" "s2" "hi" "done" cexUser cexSession rfl).1 rfl rfl).2
  · exact (chat_round_trip_append_only cexDb idHash agentEcho noFresh
      "u1" "s1" "hi" "done" cexUser cexSession rfl).2 rfl rfl

/-- C5: for every failure cause (missing firecrawl dependency, missing API key, or provider exception) each research tool returns a structured dictionary with success=false and an error message; the tools are total functions, so no exception propagates past the tool boundary. -/
theorem research_tools_never_throw (env : ToolEnv)
    (fc : FcCall → Except String FcData) (query : String) (d t u : Nat) :
    (env.firecrawlInstalled = false →
      ((research_topic env fc query d t u).1.success = false ∧
        (research_topic env fc query d t u).1.error.isSome = true) ∧
      ((deep_research env fc query d t u).1.success = false ∧
        (deep_research env fc query d t u).1.error.isSome = true) ∧
      ((get_financial_data env fc query d t u).1.success = false ∧
        (get_financial_data env fc query d t u).1.error.isSome = true)) ∧
    (env.firecrawlInstalled = true → env.fcApiKey = none →
      ((research_topic env fc query d t u).1.success = false ∧
        (research_topic env fc query d t u).1.error.isSome = true) ∧
      ((deep_research env fc query d t u).1.success = false ∧
        (deep_research env fc query d t u).1.error.isSome = true) ∧
      ((get_financial_data env fc query d t u).1.success = false ∧
        (get_financial_data env fc query d t u).1.error.isSome = true)) ∧
    (∀ k e, env.firecrawlInstalled = true → env.fcApiKey = some k →
      fc { query := query, max_depth := 5, time_limit := 180, max_urls := 10 } =
        .error e →
      (research_topic env fc query d t u).1.success = false ∧
      (research_topic env fc query d t u).1.error = some e) ∧
    (∀ k e, env.firecrawlInstalled = true → env.fcApiKey = some k →
      fc { query := query, max_depth := 10, time_limit := 300, max_urls := 50 } =
        .error e →
      ((deep_research env fc query d t u).1.success = false ∧
        (deep_research env fc query d t u).1.error = some e) ∧
      ((get_financial_data env fc query d t u).1.success = false ∧
        (get_financial_data env fc query d t u).1.error = some e)) := by
  refine ⟨?_, ?_, ?_, ?_⟩
  · intro h
    have hq := (firecrawlToolBody_failure env fc query 5 180 10).1 h
    have hd := (firecrawlToolBody_failure env fc query 10 300 50).1 h
    have hqe : (research_topic env fc query d t u).1.error =
        some "Deep research tool dependency missing." := hq.2
    have hde : (deep_research env fc query d t u).1.error =
        some "Deep research tool dependency missing." := hd.2
    have hfe : (get_financial_data env fc query d t u).1.error =
        some "Deep research tool dependency missing." := hd.2
    exact ⟨⟨hq.1, by rw [hqe]; rfl⟩, ⟨hd.1, by rw [hde]; rfl⟩,
           ⟨hd.1, by rw [hfe]; rfl⟩⟩
  · intro h1 h2
    have hq := (firecrawlToolBody_failure env fc query 5 180 10).2.1 h1 h2
    have hd := (firecrawlToolBody_failure env fc query 10 300 50).2.1 h1 h2
    have hqe : (research_topic env fc query d t u).1.error =
        some "FireCrawl API key not configured." := hq.2
    have hde : (deep_research env fc query d t u).1.error =
        some "FireCrawl API key not configured." := hd.2
    have hfe : (get_financial_data env fc query d t u).1.error =
        some "FireCrawl API key not configured." := hd.2
    exact ⟨⟨hq.1, by rw [hqe]; rfl⟩, ⟨hd.1, by rw [hde]; rfl⟩,
           ⟨hd.1, by rw [hfe]; rfl⟩⟩
  · intro k e h1 h2 h3
    exact (firecrawlToolBody_failure env fc query 5 180 10).2.2 k e h1 h2 h3
  · intro k e h1 h2 h3
    exact ⟨(firecrawlToolBody_failure env fc query 10 300 50).2.2 k e h1 h2 h3,
           (firecrawlToolBody_failure env fc query 10 300 50).2.2 k e h1 h2 h3⟩

/-- Witness for C5 at the three concrete failure environments. -/
theorem research_tools_never_throw_witness :
    ((research_topic toolEnvNoFirecrawl fcProbeRaise "q" 1 2 3).1.success = false ∧
      (research_topic toolEnvNoFirecrawl fcProbeRaise "q" 1 2 3).1.error.isSome = true) ∧
    ((deep_research toolEnvNoKey fcProbeRaise "q" 1 2 3).1.success = false ∧
      (deep_research toolEnvNoKey fcProbeRaise "q" 1 2 3).1.error.isSome = true) ∧
    ((research_topic toolEnvReady fcProbeRaise "q" 1 2 3).1.success = false ∧
      (research_topic toolEnvReady fcProbeRaise "q" 1 2 3).1.error = some "boom") ∧
    ((get_financial_data toolEnvReady fcProbeRaise "q" 1 2 3).1.success = false ∧
      (get_financial_data toolEnvReady fcProbeRaise "q" 1 2 3).1.error = some "boom") :=
  ⟨((research_tools_never_throw toolEnvNoFirecrawl fcProbeRaise "q" 1 2 3).1 rfl).1,
   (((research_tools_never_throw toolEnvNoKey fcProbeRaise "q" 1 2 3).2.1 rfl rfl)).2.1,
   (research_tools_never_throw toolEnvReady fcProbeRaise "q" 1 2 3).2.2.1 "k" "boom" rfl rfl rfl,
   ((research_tools_never_throw toolEnvReady fcProbeRaise "q" 1 2 3).2.2.2 "k" "boom" rfl rfl rfl).2⟩

/-- C6: for a timezone name outside the database the time tool does not raise and returns the structured failure string, shown with the Unknown-timezone marker as an explicit factor; for a recognized name it returns the formatted local timestamp. -/
theorem current_time_structured_failure (tzdb : List String)
    (clock : String → LocalTime) (country_tz : String) :
    (tzdb.contains country_tz = false →
      get_current_time_in_country tzdb clock country_tz =
        "Error: " ++ ("Unknown timezone" ++ (" '" ++ country_tz ++
          "'. Please provide a valid timezone name (e.g., 'America/New_York', 'Europe/London', 'Asia/Tokyo')."))) ∧
    (tzdb.contains country_tz = false →
      ∃ pre post, get_current_time_in_country tzdb clock country_tz =
        pre ++ ("Unknown timezone" ++ post)) ∧
    (tzdb.contains country_tz = true →
      get_current_time_in_country tzdb clock country_tz =
        strftimeYmdHms (clock country_tz)) := by
  refine ⟨?_, ?_, ?_⟩
  · intro h
    simp only [get_current_time_in_country, h, Bool.false_eq_true, if_false,
      ite_false, unknownTzMessage]
  · intro h
    refine ⟨"Error: ", " '" ++ country_tz ++
      "'. Please provide a valid timezone name (e.g., 'America/New_York', 'Europe/London', 'Asia/Tokyo').", ?_⟩
    simp only [get_current_time_in_country, h, Bool.false_eq_true, if_false,
      ite_false, unknownTzMessage]
  · intro h
    simp only [get_current_time_in_country, h, if_true, ite_true]

/-- Witness for C6 at the unknown name Mars/Crater and the known name Asia/Karachi. -/
theorem current_time_structured_failure_witness :
    (get_current_time_in_country ["Asia/Karachi"]
        (fun _ => { year := 2025, month := 1, day := 2, hour := 3, minute := 4, second := 5 })
        "Mars/Crater" =
      "Error: " ++ ("Unknown timezone" ++ (" '" ++ "Mars/Crater" ++
        "'. Please provide a valid timezone name (e.g., 'America/New_York', 'Europe/London', 'Asia/Tokyo')."))) ∧
    (get_current_time_in_country ["Asia/Karachi"]
        (fun _ => { year := 2025, month := 1, day := 2, hour := 3, minute := 4, second := 5 })
        "Asia/Karachi" =
      strftimeYmdHms { year := 2025, month := 1, day := 2, hour := 3, minute := 4, second := 5 }) :=
  ⟨(current_time_structured_failure ["Asia/Karachi"] _ "Mars/Crater").1 (by decide),
   (current_time_structured_failure ["Asia/Karachi"] _ "Asia/Karachi").2.2 (by decide)⟩

/-- C7: addressing an existing session with a resolved user id always leaves the stored session owned by that resolved id; when the stored owner differed it is silently overwritten, and when it already matched it is unchanged, regardless of whether the agent step succeeds or raises. -/
theorem session_owner_reassigned (db : Db) (hash : String → String)
    (agentRun : List Message → Except String String) (fresh : Fresh)
    (uid sid msg : String) (u : User) (s : ChatSession)
    (hu : userFindUnique db uid = some u)
    (hs : chatFindUnique db sid = some s) :
    ∃ s2, chatFindUnique (handle_chat_message db hash agentRun fresh
        { message := msg, session_id := some sid, user_id := some uid }).1 sid =
      some s2 ∧ s2.user_id = uid := by
  rw [handle_chat_existing_eq db hash agentRun fresh uid sid msg u s hu hs]
  cases hrun : agentRun (s.history ++ [{ role := "user", content := msg }]) with
  | ok reply =>
      rw [chatTurnFinish_ok _ agentRun s.id s.history sid uid msg reply hrun]
      have hfind := chatFindUnique_owner_then_update db sid uid s
        (s.history ++ [{ role := "user", content := msg }] ++
          [{ role := "assistant", content := reply }]) hs
      by_cases hown : s.user_id ≠ uid
      · rw [if_pos hown]
        rw [if_pos hown, if_pos hown] at hfind
        exact ⟨_, hfind, rfl⟩
      · rw [if_neg hown]
        rw [if_neg hown, if_neg hown] at hfind
        exact ⟨_, hfind, not_ne_iff.mp hown⟩
  | error e =>
      rw [chatTurnFinish_error _ agentRun s.id s.history sid uid msg e hrun]
      have hfind := chatFindUnique_after_owner db sid uid s hs
      by_cases hown : s.user_id ≠ uid
      · rw [if_pos hown]
        rw [if_pos hown, if_pos hown] at hfind
        exact ⟨_, hfind, rfl⟩
      · rw [if_neg hown]
        rw [if_neg hown, if_neg hown] at hfind
        exact ⟨_, hfind, not_ne_iff.mp hown⟩

/-- Witness for C7: user u2 addresses the session owned by u1 and the stored owner becomes u2. -/
theorem session_owner_reassigned_witness :
    ∃ s2, chatFindUnique (handle_chat_message cexDb2 idHash agentEcho noFresh
        { message := "hi", session_id := some "s1", user_id := some "u2" }).1 "s1" =
      some s2 ∧ s2.user_id = "u2" :=
  session_owner_reassigned cexDb2 idHash agentEcho noFresh "u2" "s1" "hi"
    cexUser2 cexSession rfl rfl

/-- C8: every operation that writes a password column stores the hash of the plaintext, never the plaintext (POST /users, the anonymous auto-provisioning of POST /chat, and PUT /users with a password key), and the profile returned by GET /users never contains a password field. -/
theorem passwords_hashed_and_never_returned (db : Db) (hash : String → String)
    (user : UserModel) (fresh : Fresh) (now : Nat) (uid p : String) (u : User) :
    (∃ rec, (create_user db hash user).1.users = db.users ++ [rec] ∧
      rec.password = hash user.password) ∧
    (∃ rec, (autoCreateAnonUser db hash fresh).1.users = db.users ++ [rec] ∧
      rec.password = hash fresh.anonPasswordSeed) ∧
    (userFindUnique db uid = some u →
      (update_user db hash now uid [("password", JValue.str p)]).2 = .ok "updated" ∧
      userFindUnique (update_user db hash now uid [("password", JValue.str p)]).1 uid =
        some { u with password := hash p, updatedAt := now }) ∧
    (∀ fields, get_user db uid = .ok fields → ∀ v, ("password", v) ∉ fields) := by
  refine ⟨⟨_, rfl, rfl⟩, ⟨_, rfl, rfl⟩, ?_, ?_⟩
  · intro hu
    have hmatched : ((db.users.filter (fun x : User => x.id == uid)).length == 0) = false :=
      filter_length_beq_zero_of_find? (fun x : User => x.id == uid) db.users u hu
    have happ : ∀ a : User,
        applyUpdateData a (dictSet (buildUpdateData hash [("password", JValue.str p)])
          "updatedAt" (JValue.num now)) =
        { a with password := hash p, updatedAt := now } := fun a => rfl
    constructor
    · unfold update_user
      rw [hmatched]
      rfl
    · have hfind := find?_map_pres (fun a : User => a.id == uid)
        (fun a : User => if a.id == uid then
            applyUpdateData a (dictSet (buildUpdateData hash [("password", JValue.str p)])
              "updatedAt" (JValue.num now))
          else a)
        (by
          intro a
          cases hc : a.id == uid
          · simp [hc]
          · simp [hc, happ a])
        db.users u hu
      have hpu : (u.id == uid) = true :=
        List.find?_some (p := fun x : User => x.id == uid) hu
      simp only [hpu, if_true, ite_true, happ u] at hfind
      unfold update_user
      rw [hmatched]
      exact hfind
  · intro fields hok v hmem
    unfold get_user at hok
    cases hq : userFindUnique db uid with
    | none =>
        rw [hq] at hok
        cases hok
    | some w =>
        rw [hq] at hok
        injection hok with h
        subst h
        simp at hmem

/-- Witness for C8 on a concrete store: the updated password is the hash and the returned profile has no password key. -/
theorem passwords_hashed_and_never_returned_witness :
    ((update_user cexDb idHash 9 "u1" [("password", JValue.str "pw")]).2 = .ok "updated" ∧
      userFindUnique (update_user cexDb idHash 9 "u1" [("password", JValue.str "pw")]).1 "u1" =
        some { cexUser with password := idHash "pw", updatedAt := 9 }) ∧
    ("password", JValue.str "zz") ∉ cexUserFields :=
  ⟨(passwords_hashed_and_never_returned cexDb idHash
      { email := "c@x", password := "q", isSubscribed := false, subscription := .objNil,
        freePlanUsage := .objNil, role := "admin", paymentStatus := "inactive",
        plan := "free" } noFresh 9 "u1" "pw" cexUser).2.2.1 rfl,
   (passwords_hashed_and_never_returned cexDb idHash
      { email := "c@x", password := "q", isSubscribed := false, subscription := .objNil,
        freePlanUsage := .objNil, role := "admin", paymentStatus := "inactive",
        plan := "free" } noFresh 9 "u1" "pw" cexUser).2.2.2 cexUserFields rfl
      (JValue.str "zz")⟩

/-- C9: a PUT /users body consisting only of unrecognized keys succeeds with status updated and leaves the stored record unchanged except updatedAt, which is set to the current time; unknown keys are dropped by the whitelist rather than rejected. -/
theorem update_user_unknown_keys_frame (db : Db) (hash : String → String)
    (now : Nat) (uid : String) (up : List (String × JValue)) (u : User)
    (hu : userFindUnique db uid = some u)
    (hkeys : ∀ kv ∈ up, valid_fields.contains kv.1 = false) :
    (update_user db hash now uid up).2 = .ok "updated" ∧
    userFindUnique (update_user db hash now uid up).1 uid =
      some { u with updatedAt := now } := by
  have hdata : buildUpdateData hash up = [] :=
    buildUpdateData_invalid_keys hash up [] hkeys
  have hmatched : ((db.users.filter (fun x : User => x.id == uid)).length == 0) = false :=
    filter_length_beq_zero_of_find? (fun x : User => x.id == uid) db.users u hu
  have happ : ∀ a : User,
      applyUpdateData a (dictSet [] "updatedAt" (JValue.num now)) =
      { a with updatedAt := now } := fun a => rfl
  constructor
  · unfold update_user
    rw [hmatched]
    rfl
  · have hfind := find?_map_pres (fun a : User => a.id == uid)
      (fun a : User => if a.id == uid then
          applyUpdateData a (dictSet (buildUpdateData hash up) "updatedAt" (JValue.num now))
        else a)
      (by
        intro a
        cases hc : a.id == uid
        · simp [hc]
        · rw [hdata]
          simp [hc, happ a])
      db.users u hu
    rw [hdata] at hfind
    have hpu : (u.id == uid) = true :=
      List.find?_some (p := fun x : User => x.id == uid) hu
    simp only [hpu, if_true, ite_true, happ u] at hfind
    unfold update_user
    rw [hmatched, hdata]
    exact hfind

/-- Witness for C9 with the body foo=bar on a concrete store. -/
theorem update_user_unknown_keys_frame_witness :
    (update_user cexDb idHash 7 "u1" [("foo", JValue.str "bar")]).2 = .ok "updated" ∧
    userFindUnique (update_user cexDb idHash 7 "u1" [("foo", JValue.str "bar")]).1 "u1" =
      some { cexUser with updatedAt := 7 } :=
  update_user_unknown_keys_frame cexDb idHash 7 "u1" [("foo", JValue.str "bar")]
    cexUser rfl (by decide)

/-- C10: DELETE /users removes only the user row; the session table is untouched, and listing a user's sessions or fetching one session returns exactly what it returned before the delete, so sessions referencing the deleted user survive. -/
theorem delete_user_no_cascade (db : Db) (uid quid sid : String) :
    (delete_user db uid).1.sessions = db.sessions ∧
    get_sessions_by_user (delete_user db uid).1 quid =
      get_sessions_by_user db quid ∧
    get_session_history (delete_user db uid).1 sid =
      get_session_history db sid := by
  have h1 : (delete_user db uid).1.sessions = db.sessions := by
    simp only [delete_user, userDeleteMany]
    split <;> rfl
  refine ⟨h1, ?_, ?_⟩
  · simp only [get_sessions_by_user, chatFindManyByUser, h1]
  · simp only [get_session_history, chatFindUnique, h1]
